import Mathlib

/-! Collector scrapers of the MySQL exporter.

A shallow embedding of the five scrapers under `collector/`:

* `info_schema_global_status.go`  (`ScrapeGlobalStatusRequestRatesSum`)
* `info_schema_saturation.go`     (`ScrapeGlobalStatusSaturationSum`)
* `info_schema_utilization.go`    (`ScrapeGlobalStatusUtilizationSum`)
* `perf_schema_error_rate.go`     (`ScrapePerfSchemaQueryErrorRateSum`)
* `perf_schema_latency.go`        (`ScrapePerfSchemaQueryLatencyRateSum`)

Every `Scrape` method talks to three collaborators: the database handle
(`db.QueryContext`), the row cursor it returns (`Next`, `Scan`, `Close`) and
the metric channel (`ch <- ...`).  The embedding makes each of those calls an
`Event` and lets `Scrape` return the list of events it performed, in order,
together with the `error` it returns.
-/

namespace collector

/-! ## The Prometheus client values the scrapers build -/

/-- The metric kinds of `prometheus.ValueType`. -/
inductive ValueType where
  | CounterValue
  | GaugeValue
  | UntypedValue
  deriving DecidableEq, Repr

/-- The part of `prometheus.Desc` fixed by `prometheus.NewDesc(fqName, help, nil, nil)`. -/
structure Desc where
  fqName : String
  help : String
  variableLabels : List String
  deriving DecidableEq, Repr

/-- The function `prometheus.NewDesc` called with `nil` variable labels and `nil` constant labels. -/
def NewDesc (fqName help : String) : Desc :=
  { fqName := fqName, help := help, variableLabels := [] }

/-- The function `prometheus.BuildFQName`: the non-empty parts joined with `_`; an empty
`name` gives the empty string. -/
def BuildFQName (nameSpace subsystem name : String) : String :=
  if name = "" then ""
  else if nameSpace ≠ "" ∧ subsystem ≠ "" then nameSpace ++ "_" ++ subsystem ++ "_" ++ name
  else if nameSpace ≠ "" then nameSpace ++ "_" ++ name
  else if subsystem ≠ "" then subsystem ++ "_" ++ name
  else name

/-- A constant metric as built by `prometheus.MustNewConstMetric(desc, valueType, value)`.
The value is the exact rational number the `float64` stands for. -/
structure Metric where
  desc : Desc
  valueType : ValueType
  value : ℚ
  deriving DecidableEq

/-- The function `prometheus.MustNewConstMetric` without label values.  The Go function
panics on a descriptor that was built with an error or on a label count that differs from
the descriptor; the descriptors of this package have no variable labels, are used without
label values, and are taken to be well formed. -/
def MustNewConstMetric (desc : Desc) (valueType : ValueType) (value : ℚ) : Metric :=
  { desc := desc, valueType := valueType, value := value }

/-- The Go conversion `float64(total)` of a `uint64`: exact below `2^53`, otherwise the
nearest number with a 53-bit significand, ties going to the even significand. -/
def float64 (total : Nat) : ℚ :=
  if total < 2 ^ 53 then (total : ℚ)
  else
    let e := Nat.log2 total - 52
    let q := total / 2 ^ e
    let r := total % 2 ^ e
    let half := 2 ^ (e - 1)
    let q1 := if half < r ∨ (r = half ∧ q % 2 = 1) then q + 1 else q
    ((q1 * 2 ^ e : Nat) : ℚ)

/-! ## The database collaborator -/

deriving instance DecidableEq for Except

/-- The row cursor `*sql.Rows` as the scrapers see it: the rows `Next` will still yield,
what `Scan(&total)` with `total uint64` does with a row (the value stored, or the error
returned), and the error `Err()` would report once `Next` has returned false (no scraper
reads it). -/
structure Rows (ρ ε : Type) where
  pending : List ρ
  Scan : ρ → Except ε Nat
  Err : Option ε

/-- The database handle `*sql.DB` together with the context `ctx` of the call: what
`db.QueryContext(ctx, query)` returns for a query text, a cursor or an error (the error of
a context cancelled before the call returns is one such error). -/
structure DB (ρ ε : Type) where
  QueryContext : String → Except ε (Rows ρ ε)

/-- One interaction of a `Scrape` call with its collaborators. -/
inductive Event where
  | queryContext (query : String)
  | next
  | scan
  | send (m : Metric)
  | close
  deriving DecidableEq

/-- What a `Scrape` call did and returned: the interactions in the order they happened
and the returned `error` (`none` is `nil`). -/
structure Outcome (ε : Type) where
  trace : List Event
  err : Option ε

/-- The metrics among a list of interactions, in order. -/
def sent (trace : List Event) : List Metric :=
  trace.filterMap fun ev => match ev with
    | Event.send m => some m
    | _ => none

/-- The metrics sent on the channel `ch`, in the order they were sent. -/
def emitted {ε : Type} (o : Outcome ε) : List Metric :=
  sent o.trace

/-- The count of `Close` calls on the row cursor. -/
def closeCount {ε : Type} (o : Outcome ε) : Nat :=
  o.trace.count Event.close

/-- The count of rows read with `Scan`. -/
def scanCount {ε : Type} (o : Outcome ε) : Nat :=
  o.trace.count Event.scan

/-- The count of `Next` calls on the row cursor. -/
def nextCount {ε : Type} (o : Outcome ε) : Nat :=
  o.trace.count Event.next

/-- The loop shared by the five `Scrape` methods:
`for rows.Next() { if err := rows.Scan(&total); err != nil { return err }; ch <- MustNewConstMetric(desc, valueType, float64(total)) }`.
It gives the interactions of the loop and the error the loop returned with, if any. -/
def scrapeLoop {ρ ε : Type} (desc : Desc) (valueType : ValueType) (Scan : ρ → Except ε Nat) :
    List ρ → List Event × Option ε
  | [] => ([Event.next], none)
  | r :: rest =>
    match Scan r with
    | Except.error err => ([Event.next, Event.scan], some err)
    | Except.ok total =>
      let tail := scrapeLoop desc valueType Scan rest
      (Event.next :: Event.scan ::
        Event.send (MustNewConstMetric desc valueType (float64 total)) :: tail.1, tail.2)

/-- The body shared by the five `Scrape` methods: run the query and return its error without
touching any cursor, else run the loop and, by the deferred call, close the cursor last. -/
def scrapeWith {ρ ε : Type} (query : String) (desc : Desc) (valueType : ValueType)
    (db : DB ρ ε) : Outcome ε :=
  match db.QueryContext query with
  | Except.error err => { trace := [Event.queryContext query], err := some err }
  | Except.ok rows =>
    let body := scrapeLoop desc valueType rows.Scan rows.pending
    { trace := Event.queryContext query :: body.1 ++ [Event.close], err := body.2 }

/-! ## The five scrapers -/

section Scrapers

/- The package constants `namespace` and `informationSchema` are declared outside the five
files; every definition below takes them as parameters. -/
variable (nameSpace informationSchema : String)

/-- The query text of `info_schema_global_status.go`, lines 25 to 30. -/
def globalStatusRequestRatesQuery : String :=
  "\n\tSELECT\n\t\tSUM(variable_value) AS TOTAL_REQUEST_RATE\n\t\tFROM information_schema.global_status\n\t\tWHERE variable_name IN ('com_select', 'com_update', 'com_delete', 'com_insert');\n\t"

/-- The query text of `info_schema_saturation.go`, lines 25 to 30. -/
def globalStatusSaturationQuery : String :=
  "\n\tSELECT\n\t\tsum(variable_value)\n\t\tFROM information_schema.global_status\n\t\tWHERE Variable_name = 'THREADS_RUNNING' ;\n\t"

/-- The query text of `info_schema_utilization.go`, lines 25 to 29. -/
def globalStatusUtilizationQuery : String :=
  "\n\tSELECT\n\t\tvariable_value FROM information_schema.global_status\n\t\tWHERE variable_name = 'INNODB_ROWS_READ' ;\n\t"

/-- The query text of `perf_schema_error_rate.go`, lines 25 to 29. -/
def queryErrorRateQuery : String :=
  "\n\tSELECT \n\t\tsum(sum_errors) AS query_count\n\tFROM performance_schema.events_statements_summary_by_user_by_event_name WHERE event_name IN ('statement/sql/select', 'statement/sql/insert', 'statement/sql/update', 'statement/sql/delete');\n\t"

/-- The query text of `perf_schema_latency.go`, lines 25 to 30. -/
def queryLatencyRateQuery : String :=
  "\n\tSELECT \n\t\t(avg_timer_wait)/1e9 AS avg_latency_ms FROM performance_schema.events_statements_summary_global_by_event_name\n\tWHERE event_name = 'statement/sql/select';\n\tTRUNCATE TABLE performance_schema.events_statements_summary_global_by_event_name ;\n\t"

/-- The descriptor of the request-rate scraper. -/
def informationSchemaGlobalStatusRequestSumTotalDesc : Desc :=
  NewDesc (BuildFQName nameSpace informationSchema "global_status_request_rate")
    "The total count of requests."

/-- The descriptor of the saturation scraper. -/
def informationSchemaGlobalStatusSaturationDesc : Desc :=
  NewDesc (BuildFQName nameSpace informationSchema "global_status_saturation")
    "Saturation rate."

/-- The descriptor of the utilization scraper. -/
def informationSchemaGlobalStatusUtilizationDesc : Desc :=
  NewDesc (BuildFQName nameSpace informationSchema "global_status_utilization")
    "Utilization rate."

/-- The descriptor of the error-rate scraper. -/
def perfSchemaQueryErrorRateDesc : Desc :=
  NewDesc (BuildFQName nameSpace informationSchema "event_statement_summary_by_user_by_event_name")
    "The total count of query_count errors."

/-- The descriptor of the latency scraper. -/
def perfSchemaQueryLatencyRateDesc : Desc :=
  NewDesc (BuildFQName nameSpace informationSchema "event_statement_summary_by_user_by_event_name")
    "Show Latency"

def ScrapeGlobalStatusRequestRatesSum.Name : String :=
  "globalStatusRequestRatesSum"

def ScrapeGlobalStatusRequestRatesSum.Help : String :=
  "Returns request rate from information_schema.global_status"

def ScrapeGlobalStatusRequestRatesSum.Scrape {ρ ε : Type} (db : DB ρ ε) : Outcome ε :=
  scrapeWith globalStatusRequestRatesQuery
    (informationSchemaGlobalStatusRequestSumTotalDesc nameSpace informationSchema)
    ValueType.CounterValue db

def ScrapeGlobalStatusSaturationSum.Name : String :=
  "globalStatusSaturationSum"

def ScrapeGlobalStatusSaturationSum.Help : String :=
  "Returns saturation rate from information_schema.global_status"

def ScrapeGlobalStatusSaturationSum.Scrape {ρ ε : Type} (db : DB ρ ε) : Outcome ε :=
  scrapeWith globalStatusSaturationQuery
    (informationSchemaGlobalStatusSaturationDesc nameSpace informationSchema)
    ValueType.CounterValue db

def ScrapeGlobalStatusUtilizationSum.Name : String :=
  "globalStatusUtilizationSum"

def ScrapeGlobalStatusUtilizationSum.Help : String :=
  "Returns utilization rate from information_schema.global_status"

def ScrapeGlobalStatusUtilizationSum.Scrape {ρ ε : Type} (db : DB ρ ε) : Outcome ε :=
  scrapeWith globalStatusUtilizationQuery
    (informationSchemaGlobalStatusUtilizationDesc nameSpace informationSchema)
    ValueType.CounterValue db

def ScrapePerfSchemaQueryErrorRateSum.Name : String :=
  "perfSchemaQueryErrorRateSum"

def ScrapePerfSchemaQueryErrorRateSum.Help : String :=
  "Returns error rate from performance_schema.event_statements_summary_by_user_by_event_name"

def ScrapePerfSchemaQueryErrorRateSum.Scrape {ρ ε : Type} (db : DB ρ ε) : Outcome ε :=
  scrapeWith queryErrorRateQuery
    (perfSchemaQueryErrorRateDesc nameSpace informationSchema)
    ValueType.CounterValue db

def ScrapePerfSchemaQueryLatencyRateSum.Name : String :=
  "perfSchemaQueryLatencyRateSum"

def ScrapePerfSchemaQueryLatencyRateSum.Help : String :=
  "Returns Latency rate from performance_schema.event_statements_summary_by_user_by_event_name"

/-- The source declares the result type of this method as `Latency`; the values it returns
are the same `err` and `nil` as in the other four methods, and it is embedded as they are. -/
def ScrapePerfSchemaQueryLatencyRateSum.Scrape {ρ ε : Type} (db : DB ρ ε) : Outcome ε :=
  scrapeWith queryLatencyRateQuery
    (perfSchemaQueryLatencyRateDesc nameSpace informationSchema)
    ValueType.CounterValue db

/-- The five implementations of the `Scraper` interface. -/
inductive Scraper where
  | globalStatusRequestRatesSum
  | globalStatusSaturationSum
  | globalStatusUtilizationSum
  | perfSchemaQueryErrorRateSum
  | perfSchemaQueryLatencyRateSum
  deriving DecidableEq, Repr

/-- All five scrapers. -/
def Scraper.all : List Scraper :=
  [Scraper.globalStatusRequestRatesSum, Scraper.globalStatusSaturationSum,
   Scraper.globalStatusUtilizationSum, Scraper.perfSchemaQueryErrorRateSum,
   Scraper.perfSchemaQueryLatencyRateSum]

/-- Interface dispatch of `Name()`. -/
def Scraper.Name : Scraper → String
  | Scraper.globalStatusRequestRatesSum => ScrapeGlobalStatusRequestRatesSum.Name
  | Scraper.globalStatusSaturationSum => ScrapeGlobalStatusSaturationSum.Name
  | Scraper.globalStatusUtilizationSum => ScrapeGlobalStatusUtilizationSum.Name
  | Scraper.perfSchemaQueryErrorRateSum => ScrapePerfSchemaQueryErrorRateSum.Name
  | Scraper.perfSchemaQueryLatencyRateSum => ScrapePerfSchemaQueryLatencyRateSum.Name

/-- Interface dispatch of `Help()`. -/
def Scraper.Help : Scraper → String
  | Scraper.globalStatusRequestRatesSum => ScrapeGlobalStatusRequestRatesSum.Help
  | Scraper.globalStatusSaturationSum => ScrapeGlobalStatusSaturationSum.Help
  | Scraper.globalStatusUtilizationSum => ScrapeGlobalStatusUtilizationSum.Help
  | Scraper.perfSchemaQueryErrorRateSum => ScrapePerfSchemaQueryErrorRateSum.Help
  | Scraper.perfSchemaQueryLatencyRateSum => ScrapePerfSchemaQueryLatencyRateSum.Help

/-- The query constant each scraper passes to `db.QueryContext`. -/
def Scraper.query : Scraper → String
  | Scraper.globalStatusRequestRatesSum => globalStatusRequestRatesQuery
  | Scraper.globalStatusSaturationSum => globalStatusSaturationQuery
  | Scraper.globalStatusUtilizationSum => globalStatusUtilizationQuery
  | Scraper.perfSchemaQueryErrorRateSum => queryErrorRateQuery
  | Scraper.perfSchemaQueryLatencyRateSum => queryLatencyRateQuery

/-- The metric descriptor each scraper builds its metrics with. -/
def Scraper.desc : Scraper → Desc
  | Scraper.globalStatusRequestRatesSum =>
      informationSchemaGlobalStatusRequestSumTotalDesc nameSpace informationSchema
  | Scraper.globalStatusSaturationSum =>
      informationSchemaGlobalStatusSaturationDesc nameSpace informationSchema
  | Scraper.globalStatusUtilizationSum =>
      informationSchemaGlobalStatusUtilizationDesc nameSpace informationSchema
  | Scraper.perfSchemaQueryErrorRateSum =>
      perfSchemaQueryErrorRateDesc nameSpace informationSchema
  | Scraper.perfSchemaQueryLatencyRateSum =>
      perfSchemaQueryLatencyRateDesc nameSpace informationSchema

/-- Interface dispatch of `Scrape(ctx, db, ch)`. -/
def Scraper.Scrape {ρ ε : Type} (s : Scraper) (db : DB ρ ε) : Outcome ε :=
  match s with
  | Scraper.globalStatusRequestRatesSum =>
      ScrapeGlobalStatusRequestRatesSum.Scrape nameSpace informationSchema db
  | Scraper.globalStatusSaturationSum =>
      ScrapeGlobalStatusSaturationSum.Scrape nameSpace informationSchema db
  | Scraper.globalStatusUtilizationSum =>
      ScrapeGlobalStatusUtilizationSum.Scrape nameSpace informationSchema db
  | Scraper.perfSchemaQueryErrorRateSum =>
      ScrapePerfSchemaQueryErrorRateSum.Scrape nameSpace informationSchema db
  | Scraper.perfSchemaQueryLatencyRateSum =>
      ScrapePerfSchemaQueryLatencyRateSum.Scrape nameSpace informationSchema db

end Scrapers

/-! ## Rows in text form

The cells of a result row as a driver hands them over in text form (`none` is SQL `NULL`),
and what `Rows.Scan(&total)` of `database/sql` does with such a row for `total uint64`:
the destination count is checked against the column count, then the one cell goes
through `convertAssign`, which for an unsigned destination rejects `NULL` and otherwise
calls `strconv.ParseUint(s, 10, 64)`. -/

/-- The errors of the concrete collaborators. -/
inductive SqlError where
  | ErrSyntax
  | ErrRange
  | nullUnsupported
  | destinationCount (columns : Nat)
  | queryFailed
  | Canceled
  | DeadlineExceeded
  deriving DecidableEq, Repr

/-- The digit loop of `strconv.ParseUint` for base 10 and bit size 64: `n` is the value
read so far; a character that is not a decimal digit is a syntax error, and a value that
leaves 64 bits is a range error. -/
def ParseUint.loop : List Char → Nat → Except SqlError Nat
  | [], n => Except.ok n
  | c :: cs, n =>
    if 48 ≤ c.toNat ∧ c.toNat ≤ 57 then
      let d := c.toNat - 48
      if (2 ^ 64 - 1) / 10 + 1 ≤ n then Except.error SqlError.ErrRange
      else
        let n10 := (n * 10) % 2 ^ 64
        let n1 := (n10 + d) % 2 ^ 64
        if n1 < n10 ∨ 2 ^ 64 - 1 < n1 then Except.error SqlError.ErrRange
        else ParseUint.loop cs n1
    else Except.error SqlError.ErrSyntax

/-- The call `strconv.ParseUint(s, 10, 64)`. -/
def ParseUint (s : String) : Except SqlError Nat :=
  if s = "" then Except.error SqlError.ErrSyntax else ParseUint.loop s.data 0

/-- The conversion `convertAssign(&total, cell)` of `database/sql` for `total uint64`. -/
def convertAssignUint64 : Option String → Except SqlError Nat
  | none => Except.error SqlError.nullUnsupported
  | some s => ParseUint s

/-- The call `rows.Scan(&total)` on a row in text form. -/
def textScan (row : List (Option String)) : Except SqlError Nat :=
  match row with
  | [cell] => convertAssignUint64 cell
  | _ => Except.error (SqlError.destinationCount row.length)

/-- A database whose every query succeeds with the given rows in text form. -/
def fakeDB (rows : List (List (Option String))) : DB (List (Option String)) SqlError :=
  { QueryContext := fun _ => Except.ok { pending := rows, Scan := textScan, Err := none } }

/-- A database whose every query call fails with the given error. -/
def failingDB (err : SqlError) : DB (List (Option String)) SqlError :=
  { QueryContext := fun _ => Except.error err }

/-! ## Statements of a query text -/

/-- The fragments of a text between its `;` characters. -/
def splitOnSemicolon : List Char → List (List Char)
  | [] => [[]]
  | c :: cs =>
    match splitOnSemicolon cs with
    | [] => [[]]
    | f :: fs => if c = ';' then [] :: f :: fs else (c :: f) :: fs

/-- The statements of a query text: its fragments between `;` that are not blank. -/
def statements (query : String) : List (List Char) :=
  (splitOnSemicolon query.data).filter fun f => !f.all Char.isWhitespace

/-- Whether a statement, leading white space apart, starts with the keyword. -/
def beginsWith (keyword : String) (statement : List Char) : Bool :=
  keyword.data.isPrefixOf (statement.dropWhile Char.isWhitespace)

/-! ## Lemmas on the shared loop -/

/-- The interactions of the loop rounds on rows that decode to the given values. -/
def okEvents (desc : Desc) (valueType : ValueType) : List Nat → List Event
  | [] => []
  | v :: vs =>
    Event.next :: Event.scan ::
      Event.send (MustNewConstMetric desc valueType (float64 v)) :: okEvents desc valueType vs

theorem sent_append (a b : List Event) : sent (a ++ b) = sent a ++ sent b := by
  simp [sent, List.filterMap_append]

theorem sent_okEvents (desc : Desc) (valueType : ValueType) (vs : List Nat) :
    sent (okEvents desc valueType vs)
      = vs.map fun v => MustNewConstMetric desc valueType (float64 v) := by
  induction vs with
  | nil => rfl
  | cons v vs ih =>
    have step : sent (okEvents desc valueType (v :: vs))
        = MustNewConstMetric desc valueType (float64 v) :: sent (okEvents desc valueType vs) := by
      simp [okEvents, sent]
    rw [step, ih]; rfl

/-- The metrics of a call that ran the query, some full loop rounds, and then interactions
that send nothing. -/
theorem sent_run (query : String) (desc : Desc) (valueType : ValueType) (vs : List Nat)
    (rest : List Event) (hrest : sent rest = []) :
    sent (Event.queryContext query :: okEvents desc valueType vs ++ rest)
      = vs.map fun v => MustNewConstMetric desc valueType (float64 v) := by
  have step : sent (Event.queryContext query :: okEvents desc valueType vs ++ rest)
      = sent (okEvents desc valueType vs ++ rest) := rfl
  rw [step, sent_append, sent_okEvents, hrest, List.append_nil]

theorem count_scan_okEvents (desc : Desc) (valueType : ValueType) (vs : List Nat) :
    (okEvents desc valueType vs).count Event.scan = vs.length := by
  induction vs with
  | nil => rfl
  | cons v vs ih => simp [okEvents, ih]

theorem count_next_okEvents (desc : Desc) (valueType : ValueType) (vs : List Nat) :
    (okEvents desc valueType vs).count Event.next = vs.length := by
  induction vs with
  | nil => rfl
  | cons v vs ih => simp [okEvents, ih]

theorem count_close_okEvents (desc : Desc) (valueType : ValueType) (vs : List Nat) :
    (okEvents desc valueType vs).count Event.close = 0 := by
  induction vs with
  | nil => rfl
  | cons v vs ih => simp [okEvents, ih]

/-- When every row decodes, the loop does one full round per row and one last `Next`. -/
theorem scrapeLoop_ok {ρ ε : Type} (desc : Desc) (valueType : ValueType)
    (Scan : ρ → Except ε Nat) :
    ∀ (rows : List ρ) (vs : List Nat), rows.map Scan = vs.map Except.ok →
      scrapeLoop desc valueType Scan rows
        = (okEvents desc valueType vs ++ [Event.next], none) := by
  intro rows
  induction rows with
  | nil =>
    intro vs h
    cases vs with
    | nil => rfl
    | cons v vs => simp at h
  | cons r rest ih =>
    intro vs h
    cases vs with
    | nil => simp at h
    | cons v vs =>
      simp only [List.map_cons, List.cons.injEq] at h
      simp [scrapeLoop, h.1, ih vs h.2, okEvents]

/-- When a row fails to decode after rows that decode, the loop stops at its `Scan`. -/
theorem scrapeLoop_error {ρ ε : Type} (desc : Desc) (valueType : ValueType)
    (Scan : ρ → Except ε Nat) (bad : ρ) (post : List ρ) (e : ε)
    (hbad : Scan bad = Except.error e) :
    ∀ (pre : List ρ) (vs : List Nat), pre.map Scan = vs.map Except.ok →
      scrapeLoop desc valueType Scan (pre ++ bad :: post)
        = (okEvents desc valueType vs ++ [Event.next, Event.scan], some e) := by
  intro pre
  induction pre with
  | nil =>
    intro vs h
    cases vs with
    | nil => simp [scrapeLoop, hbad, okEvents]
    | cons v vs => simp at h
  | cons r rest ih =>
    intro vs h
    cases vs with
    | nil => simp at h
    | cons v vs =>
      simp only [List.map_cons, List.cons.injEq] at h
      simp [scrapeLoop, h.1, ih vs h.2, okEvents]

/-- The loop never closes the cursor itself. -/
theorem count_close_scrapeLoop {ρ ε : Type} (desc : Desc) (valueType : ValueType)
    (Scan : ρ → Except ε Nat) (rows : List ρ) :
    (scrapeLoop desc valueType Scan rows).1.count Event.close = 0 := by
  induction rows with
  | nil => simp [scrapeLoop]
  | cons r rest ih =>
    cases h : Scan r with
    | error err => simp [scrapeLoop, h]
    | ok total => simp [scrapeLoop, h, ih]

/-- Every metric the loop sends carries the loop's descriptor and value type. -/
theorem mem_sent_scrapeLoop {ρ ε : Type} (desc : Desc) (valueType : ValueType)
    (Scan : ρ → Except ε Nat) (rows : List ρ) (m : Metric)
    (hm : m ∈ sent (scrapeLoop desc valueType Scan rows).1) :
    m.desc = desc ∧ m.valueType = valueType := by
  induction rows with
  | nil => simp [scrapeLoop, sent] at hm
  | cons r rest ih =>
    cases h : Scan r with
    | error err => simp [scrapeLoop, h, sent] at hm
    | ok total =>
      have step : sent (scrapeLoop desc valueType Scan (r :: rest)).1
          = MustNewConstMetric desc valueType (float64 total)
              :: sent (scrapeLoop desc valueType Scan rest).1 := by
        simp [scrapeLoop, h, sent]
      rw [step, List.mem_cons] at hm
      rcases hm with hm | hm
      · subst hm; exact ⟨rfl, rfl⟩
      · exact ih hm

/-- The conversion of an unsigned integer gives a whole number. -/
theorem float64_whole (total : Nat) : ∃ k : ℕ, float64 total = (k : ℚ) := by
  unfold float64
  split
  · exact ⟨total, rfl⟩
  · exact ⟨_, rfl⟩

/-- The conversion is exact below `2 ^ 53`. -/
theorem float64_exact (total : Nat) (h : total < 2 ^ 53) : float64 total = (total : ℚ) := by
  unfold float64
  rw [if_pos h]

/-- The values of the metrics the loop sends are whole numbers. -/
theorem values_sent_scrapeLoop {ρ ε : Type} (desc : Desc) (valueType : ValueType)
    (Scan : ρ → Except ε Nat) (rows : List ρ) :
    ∃ ks : List ℕ, (sent (scrapeLoop desc valueType Scan rows).1).map Metric.value
      = ks.map fun k => (k : ℚ) := by
  induction rows with
  | nil => exact ⟨[], by simp [scrapeLoop, sent]⟩
  | cons r rest ih =>
    cases h : Scan r with
    | error err => exact ⟨[], by simp [scrapeLoop, h, sent]⟩
    | ok total =>
      obtain ⟨ks, hks⟩ := ih
      obtain ⟨k, hk⟩ := float64_whole total
      refine ⟨k :: ks, ?_⟩
      have step : sent (scrapeLoop desc valueType Scan (r :: rest)).1
          = MustNewConstMetric desc valueType (float64 total)
              :: sent (scrapeLoop desc valueType Scan rest).1 := by
        simp [scrapeLoop, h, sent]
      rw [step]
      simp [hks, MustNewConstMetric, hk]

/-- Every `Scrape` method is the shared body at its own query and descriptor, with the
value type `CounterValue`. -/
theorem Scraper.Scrape_eq (nameSpace informationSchema : String) {ρ ε : Type}
    (s : Scraper) (db : DB ρ ε) :
    s.Scrape nameSpace informationSchema db
      = scrapeWith s.query (s.desc nameSpace informationSchema) ValueType.CounterValue db := by
  cases s <;> rfl

theorem scrapeWith_query_error {ρ ε : Type} (query : String) (desc : Desc)
    (valueType : ValueType) (db : DB ρ ε) (e : ε)
    (hquery : db.QueryContext query = Except.error e) :
    scrapeWith query desc valueType db = { trace := [Event.queryContext query], err := some e } := by
  simp [scrapeWith, hquery]

theorem scrapeWith_query_ok {ρ ε : Type} (query : String) (desc : Desc)
    (valueType : ValueType) (db : DB ρ ε) (rows : Rows ρ ε)
    (hquery : db.QueryContext query = Except.ok rows) :
    scrapeWith query desc valueType db
      = { trace := Event.queryContext query ::
            (scrapeLoop desc valueType rows.Scan rows.pending).1 ++ [Event.close],
          err := (scrapeLoop desc valueType rows.Scan rows.pending).2 } := by
  simp [scrapeWith, hquery]

/-- The metrics of a call that ran the query, a loop and `Close` are those of the loop. -/
theorem sent_query_loop_close (query : String) (body : List Event) :
    sent (Event.queryContext query :: body ++ [Event.close]) = sent body := by
  have step : sent (Event.queryContext query :: body ++ [Event.close])
      = sent (body ++ [Event.close]) := rfl
  have last : sent [Event.close] = [] := rfl
  rw [step, sent_append, last, List.append_nil]

/-- The text of a fully-qualified name built from a non-empty name ends in that name after
a prefix that depends on the other two parts alone. -/
theorem BuildFQName_data (nameSpace subsystem : String) :
    ∃ pre : List Char, ∀ other : String, other ≠ "" →
      (BuildFQName nameSpace subsystem other).data = pre ++ other.data := by
  by_cases hn : nameSpace = "" <;> by_cases hs : subsystem = ""
  · exact ⟨[], fun other ho => by simp [BuildFQName, ho, hn, hs]⟩
  · exact ⟨subsystem.data ++ "_".data, fun other ho => by
      simp [BuildFQName, ho, hn, hs, String.data_append]⟩
  · exact ⟨nameSpace.data ++ "_".data, fun other ho => by
      simp [BuildFQName, ho, hn, hs, String.data_append]⟩
  · exact ⟨nameSpace.data ++ "_".data ++ subsystem.data ++ "_".data, fun other ho => by
      simp [BuildFQName, ho, hn, hs, String.data_append]⟩

/-! ## The claims -/

/-- C1: when the query succeeds and every row decodes, to the values `vs`, the request-rate
scraper returns `nil` and sends one metric per row, in row order, each of kind counter
with the value `float64` of its row; the whole call is the query, one full loop round per
row, the last `Next`, and `Close`. -/
theorem requestRates_emits_one_counter_per_row (nameSpace informationSchema : String)
    {ρ ε : Type} (db : DB ρ ε) (rows : Rows ρ ε) (vs : List Nat)
    (hquery : db.QueryContext globalStatusRequestRatesQuery = Except.ok rows)
    (hrows : rows.pending.map rows.Scan = vs.map Except.ok) :
    (ScrapeGlobalStatusRequestRatesSum.Scrape nameSpace informationSchema db).err = none ∧
    (emitted (ScrapeGlobalStatusRequestRatesSum.Scrape nameSpace informationSchema db)).length
      = rows.pending.length ∧
    emitted (ScrapeGlobalStatusRequestRatesSum.Scrape nameSpace informationSchema db)
      = vs.map (fun v => MustNewConstMetric
          (informationSchemaGlobalStatusRequestSumTotalDesc nameSpace informationSchema)
          ValueType.CounterValue (float64 v)) ∧
    (ScrapeGlobalStatusRequestRatesSum.Scrape nameSpace informationSchema db).trace
      = Event.queryContext globalStatusRequestRatesQuery ::
          okEvents (informationSchemaGlobalStatusRequestSumTotalDesc nameSpace informationSchema)
            ValueType.CounterValue vs ++ [Event.next, Event.close] := by
  have hlen : vs.length = rows.pending.length := by
    have := congrArg List.length hrows
    simpa using this.symm
  have hrun := scrapeWith_query_ok globalStatusRequestRatesQuery
    (informationSchemaGlobalStatusRequestSumTotalDesc nameSpace informationSchema)
    ValueType.CounterValue db rows hquery
  rw [scrapeLoop_ok _ _ _ _ vs hrows] at hrun
  unfold ScrapeGlobalStatusRequestRatesSum.Scrape
  rw [hrun]
  have hsent := sent_run globalStatusRequestRatesQuery
    (informationSchemaGlobalStatusRequestSumTotalDesc nameSpace informationSchema)
    ValueType.CounterValue vs [Event.next, Event.close] rfl
  have htrace : Event.queryContext globalStatusRequestRatesQuery ::
      (okEvents (informationSchemaGlobalStatusRequestSumTotalDesc nameSpace informationSchema)
        ValueType.CounterValue vs ++ [Event.next]) ++ [Event.close]
      = Event.queryContext globalStatusRequestRatesQuery ::
        okEvents (informationSchemaGlobalStatusRequestSumTotalDesc nameSpace informationSchema)
          ValueType.CounterValue vs ++ [Event.next, Event.close] := by simp
  simp only [emitted, htrace]
  refine ⟨trivial, ?_, hsent, trivial⟩
  rw [hsent, List.length_map, hlen]

/-- C1 at one row holding `42`: one metric, of kind counter and value 42. -/
theorem requestRates_emits_one_counter_per_row_witness :
    (fakeDB [[some "42"]]).QueryContext globalStatusRequestRatesQuery
      = Except.ok { pending := [[some "42"]], Scan := textScan, Err := none } ∧
    [[some "42"]].map textScan = [42].map Except.ok ∧
    (ScrapeGlobalStatusRequestRatesSum.Scrape "mysql" "info_schema"
      (fakeDB [[some "42"]])).err = none ∧
    emitted (ScrapeGlobalStatusRequestRatesSum.Scrape "mysql" "info_schema"
      (fakeDB [[some "42"]]))
      = [{ desc := informationSchemaGlobalStatusRequestSumTotalDesc "mysql" "info_schema",
           valueType := ValueType.CounterValue, value := 42 }] := by
  have h := requestRates_emits_one_counter_per_row "mysql" "info_schema"
    (fakeDB [[some "42"]]) { pending := [[some "42"]], Scan := textScan, Err := none } [42]
    rfl (by decide)
  refine ⟨rfl, by decide, h.1, ?_⟩
  rw [h.2.2.1]
  simp [MustNewConstMetric, float64]

/-- C2: when the query succeeds, the rows `pre` decode to `vs` and the next row `bad` fails
to decode with `e`, every scraper returns `e` having sent exactly the metrics of `pre` in
row order; it called `Scan` and `Next` once per row up to `bad` and never for the rows
`post`, and after the failing `Scan` it did nothing but close the cursor. -/
theorem scrape_stops_at_decode_error (nameSpace informationSchema : String) {ρ ε : Type}
    (s : Scraper) (db : DB ρ ε) (rows : Rows ρ ε) (pre : List ρ) (bad : ρ) (post : List ρ)
    (vs : List Nat) (e : ε)
    (hquery : db.QueryContext s.query = Except.ok rows)
    (hsplit : rows.pending = pre ++ bad :: post)
    (hpre : pre.map rows.Scan = vs.map Except.ok)
    (hbad : rows.Scan bad = Except.error e) :
    (s.Scrape nameSpace informationSchema db).err = some e ∧
    emitted (s.Scrape nameSpace informationSchema db)
      = vs.map (fun v => MustNewConstMetric (s.desc nameSpace informationSchema)
          ValueType.CounterValue (float64 v)) ∧
    (emitted (s.Scrape nameSpace informationSchema db)).length = pre.length ∧
    scanCount (s.Scrape nameSpace informationSchema db) = pre.length + 1 ∧
    nextCount (s.Scrape nameSpace informationSchema db) = pre.length + 1 ∧
    (s.Scrape nameSpace informationSchema db).trace
      = Event.queryContext s.query ::
          okEvents (s.desc nameSpace informationSchema) ValueType.CounterValue vs
            ++ [Event.next, Event.scan, Event.close] := by
  have hlen : vs.length = pre.length := by
    have := congrArg List.length hpre
    simpa using this.symm
  have hrun := scrapeWith_query_ok s.query (s.desc nameSpace informationSchema)
    ValueType.CounterValue db rows hquery
  rw [hsplit, scrapeLoop_error _ _ _ bad post e hbad pre vs hpre] at hrun
  rw [Scraper.Scrape_eq, hrun]
  have hsent := sent_run s.query (s.desc nameSpace informationSchema)
    ValueType.CounterValue vs [Event.next, Event.scan, Event.close] rfl
  have htrace : Event.queryContext s.query ::
      (okEvents (s.desc nameSpace informationSchema) ValueType.CounterValue vs
        ++ [Event.next, Event.scan]) ++ [Event.close]
      = Event.queryContext s.query ::
        okEvents (s.desc nameSpace informationSchema) ValueType.CounterValue vs
          ++ [Event.next, Event.scan, Event.close] := by simp
  simp only [emitted, scanCount, nextCount, htrace]
  refine ⟨trivial, hsent, ?_, ?_, ?_, trivial⟩
  · rw [hsent, List.length_map, hlen]
  · simp [List.count_append, count_scan_okEvents, hlen]
  · simp [List.count_append, count_next_okEvents, hlen]

/-- C2 at three rows `5`, `x`, `7` for the error-rate scraper: the metric of the first row,
the decode error of the second, and two `Scan` calls in all. -/
theorem scrape_stops_at_decode_error_witness :
    (fakeDB [[some "5"], [some "x"], [some "7"]]).QueryContext
        Scraper.perfSchemaQueryErrorRateSum.query
      = Except.ok { pending := [[some "5"], [some "x"], [some "7"]], Scan := textScan,
                    Err := none } ∧
    [[some "5"]].map textScan = [5].map Except.ok ∧
    textScan [some "x"] = Except.error SqlError.ErrSyntax ∧
    (Scraper.perfSchemaQueryErrorRateSum.Scrape "mysql" "info_schema"
      (fakeDB [[some "5"], [some "x"], [some "7"]])).err = some SqlError.ErrSyntax ∧
    (emitted (Scraper.perfSchemaQueryErrorRateSum.Scrape "mysql" "info_schema"
      (fakeDB [[some "5"], [some "x"], [some "7"]]))).length = 1 ∧
    scanCount (Scraper.perfSchemaQueryErrorRateSum.Scrape "mysql" "info_schema"
      (fakeDB [[some "5"], [some "x"], [some "7"]])) = 2 := by
  have h := scrape_stops_at_decode_error "mysql" "info_schema"
    Scraper.perfSchemaQueryErrorRateSum (fakeDB [[some "5"], [some "x"], [some "7"]])
    { pending := [[some "5"], [some "x"], [some "7"]], Scan := textScan, Err := none }
    [[some "5"]] [some "x"] [[some "7"]] [5] SqlError.ErrSyntax rfl rfl (by decide) (by decide)
  exact ⟨rfl, by decide, by decide, h.1, h.2.2.1, h.2.2.2.1⟩

/-- C3: when the query succeeds and the cursor yields no row, every scraper sends no metric
and returns `nil`; the whole call is the query, one `Next` and `Close`. -/
theorem scrape_empty_result_succeeds (nameSpace informationSchema : String) {ρ ε : Type}
    (s : Scraper) (db : DB ρ ε) (rows : Rows ρ ε)
    (hquery : db.QueryContext s.query = Except.ok rows)
    (hempty : rows.pending = []) :
    emitted (s.Scrape nameSpace informationSchema db) = [] ∧
    (s.Scrape nameSpace informationSchema db).err = none ∧
    (s.Scrape nameSpace informationSchema db).trace
      = [Event.queryContext s.query, Event.next, Event.close] := by
  have hrun := scrapeWith_query_ok s.query (s.desc nameSpace informationSchema)
    ValueType.CounterValue db rows hquery
  rw [hempty] at hrun
  rw [Scraper.Scrape_eq, hrun]
  simp [scrapeLoop, emitted, sent]

/-- C3 at the request-rate scraper and a query that returns no rows. -/
theorem scrape_empty_result_succeeds_witness :
    (fakeDB []).QueryContext Scraper.globalStatusRequestRatesSum.query
      = Except.ok { pending := [], Scan := textScan, Err := none } ∧
    emitted (Scraper.globalStatusRequestRatesSum.Scrape "mysql" "info_schema" (fakeDB [])) = [] ∧
    (Scraper.globalStatusRequestRatesSum.Scrape "mysql" "info_schema" (fakeDB [])).err
      = none := by
  have h := scrape_empty_result_succeeds "mysql" "info_schema"
    Scraper.globalStatusRequestRatesSum (fakeDB [])
    { pending := [], Scan := textScan, Err := none } rfl rfl
  exact ⟨rfl, h.1, h.2.1⟩

/-- C4: when the query call fails with `e`, every scraper returns `e`, sends no metric and
calls neither `Next` nor `Scan`: the query call is its only interaction. -/
theorem scrape_returns_query_error (nameSpace informationSchema : String) {ρ ε : Type}
    (s : Scraper) (db : DB ρ ε) (e : ε)
    (hquery : db.QueryContext s.query = Except.error e) :
    (s.Scrape nameSpace informationSchema db).err = some e ∧
    emitted (s.Scrape nameSpace informationSchema db) = [] ∧
    nextCount (s.Scrape nameSpace informationSchema db) = 0 ∧
    scanCount (s.Scrape nameSpace informationSchema db) = 0 ∧
    (s.Scrape nameSpace informationSchema db).trace = [Event.queryContext s.query] := by
  rw [Scraper.Scrape_eq, scrapeWith_query_error _ _ _ db e hquery]
  simp [emitted, sent, nextCount, scanCount]

/-- C4 at the saturation scraper and a context cancelled before the query call returns. -/
theorem scrape_returns_query_error_witness :
    (failingDB SqlError.Canceled).QueryContext Scraper.globalStatusSaturationSum.query
      = Except.error SqlError.Canceled ∧
    (Scraper.globalStatusSaturationSum.Scrape "mysql" "info_schema"
      (failingDB SqlError.Canceled)).err = some SqlError.Canceled ∧
    emitted (Scraper.globalStatusSaturationSum.Scrape "mysql" "info_schema"
      (failingDB SqlError.Canceled)) = [] := by
  have h := scrape_returns_query_error "mysql" "info_schema"
    Scraper.globalStatusSaturationSum (failingDB SqlError.Canceled) SqlError.Canceled rfl
  exact ⟨rfl, h.1, h.2.1⟩

/-- C5, as the claim states it, fails: when the query call fails (here by a cancelled
context) the request-rate scraper returns without any `Close` call, not with one. -/
theorem close_not_called_when_query_fails :
    (failingDB SqlError.Canceled).QueryContext Scraper.globalStatusRequestRatesSum.query
      = Except.error SqlError.Canceled ∧
    closeCount (Scraper.globalStatusRequestRatesSum.Scrape "mysql" "info_schema"
      (failingDB SqlError.Canceled)) = 0 ∧
    closeCount (Scraper.globalStatusRequestRatesSum.Scrape "mysql" "info_schema"
      (failingDB SqlError.Canceled)) ≠ 1 :=
  ⟨rfl, by decide, by decide⟩

/-- C5 amended: whenever the query call succeeds, every scraper calls `Close` on the cursor
exactly once, whether all rows were consumed or a row failed to decode, and that call is
its last interaction before it returns; when the query call fails there is no cursor and
`Close` is not called. -/
theorem scrape_closes_cursor_once_after_query (nameSpace informationSchema : String)
    {ρ ε : Type} (s : Scraper) (db : DB ρ ε) :
    (∀ rows : Rows ρ ε, db.QueryContext s.query = Except.ok rows →
      closeCount (s.Scrape nameSpace informationSchema db) = 1 ∧
      (s.Scrape nameSpace informationSchema db).trace.getLast? = some Event.close) ∧
    (∀ e : ε, db.QueryContext s.query = Except.error e →
      closeCount (s.Scrape nameSpace informationSchema db) = 0) := by
  constructor
  · intro rows hquery
    rw [Scraper.Scrape_eq, scrapeWith_query_ok _ _ _ db rows hquery]
    constructor
    · simp [closeCount, List.count_append, count_close_scrapeLoop]
    · show (Event.queryContext s.query ::
          ((scrapeLoop (s.desc nameSpace informationSchema) ValueType.CounterValue rows.Scan
            rows.pending).1 ++ [Event.close])).getLast? = some Event.close
      rw [← List.cons_append]
      exact List.getLast?_concat _
  · intro e hquery
    rw [Scraper.Scrape_eq, scrapeWith_query_error _ _ _ db e hquery]
    simp [closeCount]

/-- C5 amended, at the utilization scraper: one `Close` after two rows that decode, one
`Close` after a row that fails to decode, and none when the query call fails. -/
theorem scrape_closes_cursor_once_after_query_witness :
    closeCount (Scraper.globalStatusUtilizationSum.Scrape "mysql" "info_schema"
      (fakeDB [[some "3"], [some "4"]])) = 1 ∧
    closeCount (Scraper.globalStatusUtilizationSum.Scrape "mysql" "info_schema"
      (fakeDB [[none]])) = 1 ∧
    closeCount (Scraper.globalStatusUtilizationSum.Scrape "mysql" "info_schema"
      (failingDB SqlError.queryFailed)) = 0 :=
  ⟨((scrape_closes_cursor_once_after_query "mysql" "info_schema"
        Scraper.globalStatusUtilizationSum (fakeDB [[some "3"], [some "4"]])).1 _ rfl).1,
   ((scrape_closes_cursor_once_after_query "mysql" "info_schema"
        Scraper.globalStatusUtilizationSum (fakeDB [[none]])).1 _ rfl).1,
   (scrape_closes_cursor_once_after_query "mysql" "info_schema"
        Scraper.globalStatusUtilizationSum (failingDB SqlError.queryFailed)).2 _ rfl⟩

/-- C6, as the claim states it, fails: for one row holding `7` the saturation, utilization
and latency scrapers each send one metric, and its kind is counter, not gauge. -/
theorem saturation_utilization_latency_emit_counter :
    (emitted (ScrapeGlobalStatusSaturationSum.Scrape "mysql" "info_schema"
      (fakeDB [[some "7"]]))).map Metric.valueType = [ValueType.CounterValue] ∧
    (emitted (ScrapeGlobalStatusUtilizationSum.Scrape "mysql" "info_schema"
      (fakeDB [[some "7"]]))).map Metric.valueType = [ValueType.CounterValue] ∧
    (emitted (ScrapePerfSchemaQueryLatencyRateSum.Scrape "mysql" "info_schema"
      (fakeDB [[some "7"]]))).map Metric.valueType = [ValueType.CounterValue] ∧
    ValueType.CounterValue ≠ ValueType.GaugeValue := by
  decide

/-- C6 amended: every metric sent by any of the five scrapers, for every decoded row, has
the kind counter and carries the descriptor of its scraper. -/
theorem every_emitted_metric_is_counter (nameSpace informationSchema : String) {ρ ε : Type}
    (s : Scraper) (db : DB ρ ε) (m : Metric)
    (hm : m ∈ emitted (s.Scrape nameSpace informationSchema db)) :
    m.valueType = ValueType.CounterValue ∧ m.desc = s.desc nameSpace informationSchema := by
  rw [Scraper.Scrape_eq] at hm
  cases hquery : db.QueryContext s.query with
  | error e =>
    rw [scrapeWith_query_error _ _ _ db e hquery] at hm
    simp [emitted, sent] at hm
  | ok rows =>
    rw [scrapeWith_query_ok _ _ _ db rows hquery] at hm
    simp only [emitted] at hm
    rw [sent_query_loop_close] at hm
    have h := mem_sent_scrapeLoop _ _ _ _ m hm
    exact ⟨h.2, h.1⟩

/-- C6 amended, at the saturation scraper and one row holding `7`. -/
theorem every_emitted_metric_is_counter_witness :
    MustNewConstMetric (informationSchemaGlobalStatusSaturationDesc "mysql" "info_schema")
        ValueType.CounterValue (float64 7)
      ∈ emitted (Scraper.globalStatusSaturationSum.Scrape "mysql" "info_schema"
          (fakeDB [[some "7"]])) ∧
    (MustNewConstMetric (informationSchemaGlobalStatusSaturationDesc "mysql" "info_schema")
        ValueType.CounterValue (float64 7)).valueType = ValueType.CounterValue := by
  have hm : MustNewConstMetric (informationSchemaGlobalStatusSaturationDesc "mysql" "info_schema")
        ValueType.CounterValue (float64 7)
      ∈ emitted (Scraper.globalStatusSaturationSum.Scrape "mysql" "info_schema"
          (fakeDB [[some "7"]])) := by
    have hrun : emitted (Scraper.globalStatusSaturationSum.Scrape "mysql" "info_schema"
          (fakeDB [[some "7"]]))
        = [MustNewConstMetric (informationSchemaGlobalStatusSaturationDesc "mysql" "info_schema")
            ValueType.CounterValue (float64 7)] := rfl
    rw [hrun]
    exact List.mem_singleton.mpr rfl
  exact ⟨hm, (every_emitted_metric_is_counter "mysql" "info_schema"
    Scraper.globalStatusSaturationSum (fakeDB [[some "7"]]) _ hm).1⟩

/-- C7: each of the five scrapers has a non-empty `Name()` and a non-empty `Help()`, two
scrapers with the same name are the same scraper, and so the names of any collector set
without a repeated scraper are without repetition. -/
theorem scraper_names_nonempty_and_distinct :
    (∀ s : Scraper, s.Name ≠ "" ∧ s.Help ≠ "") ∧
    (∀ s t : Scraper, s.Name = t.Name → s = t) ∧
    (Scraper.all.map Scraper.Name).Nodup ∧
    (∀ l : List Scraper, l.Nodup → (l.map Scraper.Name).Nodup) := by
  have hinj : ∀ s t : Scraper, s.Name = t.Name → s = t := by
    intro s t
    cases s <;> cases t <;> decide
  refine ⟨?_, hinj, by decide, ?_⟩
  · intro s
    cases s <;> decide
  · intro l hl
    exact List.Nodup.map (fun s t h => hinj s t h) hl

/-- C7 at the error-rate and latency scrapers, and at the set of all five. -/
theorem scraper_names_nonempty_and_distinct_witness :
    Scraper.perfSchemaQueryErrorRateSum.Name ≠ Scraper.perfSchemaQueryLatencyRateSum.Name ∧
    Scraper.all.Nodup ∧
    (Scraper.all.map Scraper.Name).Nodup :=
  ⟨fun h => absurd (scraper_names_nonempty_and_distinct.2.1 _ _ h) (by decide),
   by decide,
   scraper_names_nonempty_and_distinct.2.2.2 Scraper.all (by decide)⟩

set_option maxRecDepth 100000 in
/-- C8 fails at the latency scraper: the text it passes to `db.QueryContext` holds two
statements, a `SELECT` and then a `TRUNCATE TABLE`; the texts of the other four scrapers
hold one statement each, a `SELECT`. -/
theorem latency_query_has_second_truncate_statement :
    (∀ (nameSpace informationSchema : String) (db : DB (List (Option String)) SqlError),
      (ScrapePerfSchemaQueryLatencyRateSum.Scrape nameSpace informationSchema db).trace.head?
        = some (Event.queryContext queryLatencyRateQuery)) ∧
    (statements queryLatencyRateQuery).length = 2 ∧
    (statements queryLatencyRateQuery).map (beginsWith "SELECT") = [true, false] ∧
    (statements queryLatencyRateQuery).map (beginsWith "TRUNCATE TABLE") = [false, true] ∧
    (statements globalStatusRequestRatesQuery).map (beginsWith "SELECT") = [true] ∧
    (statements globalStatusSaturationQuery).map (beginsWith "SELECT") = [true] ∧
    (statements globalStatusUtilizationQuery).map (beginsWith "SELECT") = [true] ∧
    (statements queryErrorRateQuery).map (beginsWith "SELECT") = [true] := by
  refine ⟨?_, by decide, by decide, by decide, by decide, by decide, by decide, by decide⟩
  intro nameSpace informationSchema db
  unfold ScrapePerfSchemaQueryLatencyRateSum.Scrape scrapeWith
  cases db.QueryContext queryLatencyRateQuery <;> rfl

/-- C9 fails: for a row holding the latency `1.5` the latency scraper returns the decode
error of `Scan` into its `uint64` variable and sends nothing; and whatever the rows and
whatever `Scan` does, the values it sends are conversions of that `uint64`, whole numbers. -/
theorem latency_decodes_into_unsigned_integer :
    ((ScrapePerfSchemaQueryLatencyRateSum.Scrape "mysql" "info_schema"
        (fakeDB [[some "1.5"]])).err = some SqlError.ErrSyntax ∧
      emitted (ScrapePerfSchemaQueryLatencyRateSum.Scrape "mysql" "info_schema"
        (fakeDB [[some "1.5"]])) = []) ∧
    (∀ (nameSpace informationSchema : String) (ρ ε : Type) (db : DB ρ ε),
      ∃ ks : List ℕ,
        (emitted (ScrapePerfSchemaQueryLatencyRateSum.Scrape nameSpace informationSchema
          db)).map Metric.value = ks.map fun k => (k : ℚ)) := by
  refine ⟨by decide, ?_⟩
  intro nameSpace informationSchema ρ ε db
  unfold ScrapePerfSchemaQueryLatencyRateSum.Scrape
  cases hquery : db.QueryContext queryLatencyRateQuery with
  | error e =>
    rw [scrapeWith_query_error _ _ _ db e hquery]
    exact ⟨[], rfl⟩
  | ok rows =>
    rw [scrapeWith_query_ok _ _ _ db rows hquery]
    simp only [emitted]
    rw [sent_query_loop_close]
    exact values_sent_scrapeLoop _ _ _ _

/-- C10 fails at the error-rate and latency scrapers: whatever the package constants
`namespace` and `informationSchema` are, their two descriptors have the same
fully-qualified name, while the descriptors of the other four scrapers are pairwise
distinct in name. -/
theorem errorRate_and_latency_share_metric_name :
    (∀ nameSpace informationSchema : String,
      (perfSchemaQueryErrorRateDesc nameSpace informationSchema).fqName
        = (perfSchemaQueryLatencyRateDesc nameSpace informationSchema).fqName) ∧
    (perfSchemaQueryLatencyRateDesc "mysql" "info_schema").fqName
      = "mysql_info_schema_event_statement_summary_by_user_by_event_name" ∧
    Scraper.perfSchemaQueryErrorRateSum ≠ Scraper.perfSchemaQueryLatencyRateSum ∧
    (∀ nameSpace informationSchema : String,
      ([Scraper.globalStatusRequestRatesSum, Scraper.globalStatusSaturationSum,
        Scraper.globalStatusUtilizationSum, Scraper.perfSchemaQueryErrorRateSum].map
          fun s => (s.desc nameSpace informationSchema).fqName).Nodup) := by
  refine ⟨fun _ _ => rfl, by decide, by decide, ?_⟩
  intro nameSpace informationSchema
  obtain ⟨pre, hpre⟩ := BuildFQName_data nameSpace informationSchema
  have hnames : ["global_status_request_rate", "global_status_saturation",
      "global_status_utilization", "event_statement_summary_by_user_by_event_name"].Nodup := by
    decide
  have hnonempty : ∀ a ∈ ["global_status_request_rate", "global_status_saturation",
      "global_status_utilization", "event_statement_summary_by_user_by_event_name"],
      a ≠ "" := by
    decide
  have hmap := List.Nodup.map_on (f := BuildFQName nameSpace informationSchema)
    (fun a ha b hb h => by
      have hdata := congrArg String.data h
      rw [hpre a (hnonempty a ha), hpre b (hnonempty b hb)] at hdata
      exact String.ext (List.append_cancel_left hdata))
    hnames
  exact hmap

end collector
